import Mathlib

/-!
# Verification of the MOOC (Mesh Of Oblivious Creatures) network core

A shallow embedding, in Lean 4, of the network core of the tamagotchi
repository (package `mooc`: `identity.go`, `protocol.go`, `discovery.go`,
`gossip.go`, `network.go`), together with theorems settling the frozen
claims about its natural-language specification.

Modelling conventions, used throughout:
* Go `string` is Lean `String`; `[]byte` values fed to hashes are lists of
  `Nat` byte values (UTF-8 encoding of the string, written out explicitly).
* `time.Time` is modelled by its `UnixNano` value, a Lean `Int`
  (the code only ever uses nanosecond instants of times).
* Machine integers are `Nat`/`Int`; every 32-bit hash operation reduces
  modulo `2 ^ 32` explicitly.  None of the counters involved can overflow
  a 64-bit Go `int` on any input considered here.
* SHA-256 (`crypto/sha256`) is implemented in full (FIPS 180-4), as the
  code's identity and signature derivations truncate its digest.
* `encoding/json` byte blobs are modelled by inductive types with one
  constructor per shape of bytes the code distinguishes: a well-formed
  encoding of a typed value, or bytes that fail to decode.  Go's
  marshal/unmarshal round-trip for these flat structs is faithful, which
  the constructor-based model reflects.
-/

namespace Mooc

/-! ## SHA-256 (crypto/sha256), over `Nat` byte values -/

/-- One 32-bit word, kept as a `Nat` below `2 ^ 32`. -/
def w32 (x : Nat) : Nat := x % 4294967296

/-- 32-bit right rotation. -/
def rotr32 (n x : Nat) : Nat :=
  w32 (x / 2 ^ n + x % 2 ^ n * 2 ^ (32 - n))

/-- 32-bit right shift. -/
def shr32 (n x : Nat) : Nat := x / 2 ^ n

/-- Bitwise exclusive or (already width-safe on words). -/
def bxor (a b : Nat) : Nat := Nat.xor a b

/-- SHA-256 round constants. -/
def shaK : List Nat :=
  [1116352408, 1899447441, 3049323471, 3921009573, 961987163,
   1508970993, 2453635748, 2870763221, 3624381080, 310598401,
   607225278, 1426881987, 1925078388, 2162078206, 2614888103,
   3248222580, 3835390401, 4022224774, 264347078, 604807628,
   770255983, 1249150122, 1555081692, 1996064986, 2554220882,
   2821834349, 2952996808, 3210313671, 3336571891, 3584528711,
   113926993, 338241895, 666307205, 773529912, 1294757372,
   1396182291, 1695183700, 1986661051, 2177026350, 2456956037,
   2730485921, 2820302411, 3259730800, 3345764771, 3516065817,
   3600352804, 4094571909, 275423344, 430227734, 506948616,
   659060556, 883997877, 958139571, 1322822218, 1537002063,
   1747873779, 1955562222, 2024104815, 2227730452, 2361852424,
   2428436474, 2756734187, 3204031479, 3329325298]

/-- The eight-word SHA-256 working state. -/
structure Sha8 where
  a : Nat
  b : Nat
  c : Nat
  d : Nat
  e : Nat
  f : Nat
  g : Nat
  h : Nat
deriving Repr, DecidableEq

/-- SHA-256 initial hash value. -/
def shaH0 : Sha8 :=
  ⟨1779033703, 3144134277, 1013904242, 2773480762,
   1359893119, 2600822924, 528734635, 1541459225⟩

/-- Big-endian 32-bit word from four bytes. -/
def wordOfBytes : List Nat → Nat
  | [b0, b1, b2, b3] => ((b0 * 256 + b1) * 256 + b2) * 256 + b3
  | _ => 0

/-- Split a byte list into big-endian 32-bit words (length a multiple of 4). -/
def wordsOfBytes : List Nat → List Nat
  | b0 :: b1 :: b2 :: b3 :: rest => wordOfBytes [b0, b1, b2, b3] :: wordsOfBytes rest
  | _ => []

/-- Message-schedule extension: extend the 16 block words to 64. -/
def shaSchedule (ws : List Nat) : List Nat :=
  (List.range 48).foldl
    (fun acc _ =>
      let n := acc.length
      let w15 := acc.getD (n - 15) 0
      let w2 := acc.getD (n - 2) 0
      let s0 := bxor (bxor (rotr32 7 w15) (rotr32 18 w15)) (shr32 3 w15)
      let s1 := bxor (bxor (rotr32 17 w2) (rotr32 19 w2)) (shr32 10 w2)
      acc ++ [w32 (acc.getD (n - 16) 0 + s0 + acc.getD (n - 7) 0 + s1)])
    ws

/-- One SHA-256 compression round. -/
def shaRound (st : Sha8) (kw : Nat × Nat) : Sha8 :=
  let s1 := bxor (bxor (rotr32 6 st.e) (rotr32 11 st.e)) (rotr32 25 st.e)
  let ch := bxor (Nat.land st.e st.f) (Nat.land (w32 (4294967295 - st.e)) st.g)
  let t1 := w32 (st.h + s1 + ch + kw.1 + kw.2)
  let s0 := bxor (bxor (rotr32 2 st.a) (rotr32 13 st.a)) (rotr32 22 st.a)
  let maj := bxor (bxor (Nat.land st.a st.b) (Nat.land st.a st.c)) (Nat.land st.b st.c)
  let t2 := w32 (s0 + maj)
  ⟨w32 (t1 + t2), st.a, st.b, st.c, w32 (st.d + t1), st.e, st.f, st.g⟩

/-- Process one 64-byte block. -/
def shaBlock (st : Sha8) (block : List Nat) : Sha8 :=
  let ws := shaSchedule (wordsOfBytes block)
  let r := (shaK.zip ws).foldl (fun s kw => shaRound s (kw.1, kw.2)) st
  ⟨w32 (st.a + r.a), w32 (st.b + r.b), w32 (st.c + r.c), w32 (st.d + r.d),
   w32 (st.e + r.e), w32 (st.f + r.f), w32 (st.g + r.g), w32 (st.h + r.h)⟩

/-- SHA-256 padding: append `0x80`, zeros, and the 64-bit big-endian bit length. -/
def shaPad (msg : List Nat) : List Nat :=
  let len := msg.length
  let zeros := (64 - (len + 9) % 64) % 64
  let bitLen := len * 8
  msg ++ [0x80] ++ List.replicate zeros 0 ++
    [bitLen / 2 ^ 56 % 256, bitLen / 2 ^ 48 % 256, bitLen / 2 ^ 40 % 256,
     bitLen / 2 ^ 32 % 256, bitLen / 2 ^ 24 % 256, bitLen / 2 ^ 16 % 256,
     bitLen / 2 ^ 8 % 256, bitLen % 256]

/-- Split into 64-byte blocks, `n` blocks expected. -/
def blocks64 : Nat → List Nat → List (List Nat)
  | 0, _ => []
  | n + 1, l => l.take 64 :: blocks64 n (l.drop 64)

/-- Big-endian bytes of one 32-bit word. -/
def bytesOfWord (x : Nat) : List Nat :=
  [x / 2 ^ 24 % 256, x / 2 ^ 16 % 256, x / 2 ^ 8 % 256, x % 256]

/-- The full 32-byte SHA-256 digest of a byte list. -/
def sha256 (msg : List Nat) : List Nat :=
  let padded := shaPad msg
  let final := (blocks64 (padded.length / 64) padded).foldl shaBlock shaH0
  bytesOfWord final.a ++ bytesOfWord final.b ++ bytesOfWord final.c ++
    bytesOfWord final.d ++ bytesOfWord final.e ++ bytesOfWord final.f ++
    bytesOfWord final.g ++ bytesOfWord final.h

/-! ## Byte and hex encoding helpers (`[]byte(s)`, `encoding/hex`) -/

/-- UTF-8 bytes of one Unicode code point. -/
def utf8Char (c : Nat) : List Nat :=
  if c < 0x80 then [c]
  else if c < 0x800 then [0xc0 + c / 0x40, 0x80 + c % 0x40]
  else if c < 0x10000 then
    [0xe0 + c / 0x1000, 0x80 + c / 0x40 % 0x40, 0x80 + c % 0x40]
  else
    [0xf0 + c / 0x40000, 0x80 + c / 0x1000 % 0x40, 0x80 + c / 0x40 % 0x40,
     0x80 + c % 0x40]

/-- Go's `[]byte(s)`: the UTF-8 bytes of a string. -/
def strBytes (s : String) : List Nat :=
  s.data.foldr (fun ch acc => utf8Char ch.toNat ++ acc) []

/-- Lower-case hex digit for a value below 16 (`encoding/hex` alphabet). -/
def hexDigit (n : Nat) : Char :=
  if n < 10 then Char.ofNat (48 + n) else Char.ofNat (87 + n)

/-- `hex.EncodeToString`: two lower-case hex digits per byte. -/
def hexEncode (bs : List Nat) : String :=
  String.mk (bs.foldr (fun b acc => hexDigit (b / 16) :: hexDigit (b % 16) :: acc) [])

/-! ## Identity (identity.go)

`time.Time` values are modelled by their `UnixNano` value as an `Int`.
The zero `time.Time` is represented by the `Int` that Go's `UnixNano`
reports for it (the int64-wrapped nanosecond count of year 1). -/

/-- `(time.Time{}).UnixNano()`: the int64-wrapped nanosecond value of the
zero time, used to model `Time.IsZero` checks and zero-valued time fields. -/
def goZeroTimeNanos : Int := -6795364578871345152

/-- identity.go `PetIdentity`. `BirthTimeNanos` models `BirthTime.UnixNano()`. -/
structure PetIdentity where
  PetID : String
  DisplayName : String
  BirthTimeNanos : Int
  PublicKey : String
  Stage : String
  IsAlive : Bool
deriving Repr, DecidableEq

/-- identity.go `GeneratePetID`: hex of the first 16 bytes of
`sha256(name ++ ":" ++ decimal UnixNano)`. -/
def GeneratePetID (name : String) (birthTimeNanos : Int) : String :=
  hexEncode ((sha256 (strBytes (name ++ ":" ++ toString birthTimeNanos))).take 16)

/-- identity.go `GenerateNameHash`: hex of the first 8 bytes of `sha256(name)`. -/
def GenerateNameHash (name : String) : String :=
  hexEncode ((sha256 (strBytes name)).take 8)

/-- identity.go `NewPetIdentity`.  `Unix()` (whole seconds) is the floor
division of the nanosecond instant by `10 ^ 9`. -/
def NewPetIdentity (name : String) (birthTimeNanos : Int) (stage : String)
    (isAlive : Bool) : PetIdentity :=
  let keyData := "MOOC:PK:" ++ name ++ ":" ++ toString (Int.fdiv birthTimeNanos 1000000000)
  { PetID := GeneratePetID name birthTimeNanos
    DisplayName := name
    BirthTimeNanos := birthTimeNanos
    PublicKey := hexEncode (sha256 (strBytes keyData))
    Stage := stage
    IsAlive := isAlive }

/-- identity.go `ShortID`. -/
def ShortID (pi : PetIdentity) : String :=
  if pi.PetID.length < 8 then pi.PetID else ⟨pi.PetID.data.take 8⟩

/-- identity.go `CanShareDreamsWith`: equality of the two name fingerprints. -/
def CanShareDreamsWith (pi other : PetIdentity) : Bool :=
  GenerateNameHash pi.DisplayName == GenerateNameHash other.DisplayName

/-- identity.go `ObfuscatedName`. -/
def ObfuscatedName (pi : PetIdentity) : String :=
  if pi.DisplayName.length ≤ 2 then "???"
  else
    match pi.DisplayName.data with
    | [] => "???"
    | c :: rest =>
      ⟨c :: (List.replicate (rest.length - 1) '*' ++ rest.drop (rest.length - 1))⟩

/-! ## Message protocol (protocol.go) -/

/-- protocol.go `MessageType` (a Go `int`, `iota` constants 0–9). -/
inductive MessageType where
  | discover | announce | goodbye
  | memory | dream | moodUpdate | whisper
  | death | consensus | pulse
deriving Repr, DecidableEq

/-- The `iota` integer value of each `MessageType` constant. -/
def MessageType.toGoInt : MessageType → Nat
  | .discover => 0
  | .announce => 1
  | .goodbye => 2
  | .memory => 3
  | .dream => 4
  | .moodUpdate => 5
  | .whisper => 6
  | .death => 7
  | .consensus => 8
  | .pulse => 9

/-- protocol.go `MemoryPayload`. -/
structure MemoryPayload where
  Fragment : String
  Emotion : String
  Intensity : Int
  OriginTimeNanos : Int
deriving Repr, DecidableEq

/-- protocol.go `DreamPayload`. -/
structure DreamPayload where
  DreamText : String
  Symbols : List String
  IsLucid : Bool
  SharedWith : String
deriving Repr, DecidableEq

/-- protocol.go `MoodPayload`. -/
structure MoodPayload where
  Mood : String
  Happiness : Int
  IsContagious : Bool
deriving Repr, DecidableEq

/-- protocol.go `DeathPayload`. -/
structure DeathPayload where
  PetName : String
  DeathTimeNanos : Int
  Age : Int
  LastWords : String
  Cause : String
deriving Repr, DecidableEq

/-- protocol.go `ConsensusPayload`. -/
structure ConsensusPayload where
  EventType : String
  EventData : String
  TriggerTimeNanos : Int
deriving Repr, DecidableEq

/-- The opaque `Payload []byte` of a message, modelled by the JSON value the
bytes hold: a well-formed encoding of one of the payload structs, the JSON
`null` produced by `NewMessage(…, nil)`, or bytes `json.Unmarshal` rejects. -/
inductive PayloadBytes where
  | memory (p : MemoryPayload)
  | dream (p : DreamPayload)
  | mood (p : MoodPayload)
  | death (p : DeathPayload)
  | consensus (p : ConsensusPayload)
  | nilPayload
  | malformed
deriving Repr, DecidableEq

/-- Zero value of `MemoryPayload` (Go struct zero value). -/
def zeroMemory : MemoryPayload := ⟨"", "", 0, goZeroTimeNanos⟩

/-- Zero value of `DreamPayload`. -/
def zeroDream : DreamPayload := ⟨"", [], false, ""⟩

/-- Zero value of `MoodPayload`. -/
def zeroMood : MoodPayload := ⟨"", 0, false⟩

/-- Zero value of `DeathPayload`. -/
def zeroDeath : DeathPayload := ⟨"", goZeroTimeNanos, 0, "", ""⟩

/-- `json.Unmarshal` of the payload bytes into a `MemoryPayload` target.
Unmarshalling fails only on malformed bytes; a well-formed JSON object of a
different payload struct shares no field tags with `MemoryPayload`, so all
target fields stay at their zero values, and JSON `null` is a no-op on the
fresh zero-valued target. -/
def decodeMemory : PayloadBytes → Option MemoryPayload
  | .memory p => some p
  | .malformed => none
  | _ => some zeroMemory

/-- `json.Unmarshal` into a `DreamPayload` target (same conventions). -/
def decodeDream : PayloadBytes → Option DreamPayload
  | .dream p => some p
  | .malformed => none
  | _ => some zeroDream

/-- `json.Unmarshal` into a `MoodPayload` target (same conventions). -/
def decodeMood : PayloadBytes → Option MoodPayload
  | .mood p => some p
  | .malformed => none
  | _ => some zeroMood

/-- `json.Unmarshal` into a `DeathPayload` target (same conventions). -/
def decodeDeath : PayloadBytes → Option DeathPayload
  | .death p => some p
  | .malformed => none
  | _ => some zeroDeath

/-- protocol.go `Message`.  `TimestampNanos` models `Timestamp.UnixNano()`;
`TTL` is a Go `int`. -/
structure Message where
  MsgType : MessageType  -- the Go field is named `Type`, a Lean keyword
  From : PetIdentity
  TimestampNanos : Int
  Payload : PayloadBytes
  Signature : String
  Nonce : String
  TTL : Int
deriving Repr, DecidableEq

/-- protocol.go `generateSignature`: hex of the first 16 bytes of the SHA-256
of `fmt.Sprintf("%d:%s:%s:%d", m.Type, m.From.PetID, m.Nonce,
m.Timestamp.UnixNano())`. -/
def generateSignature (m : Message) : String :=
  hexEncode ((sha256 (strBytes
    (toString m.MsgType.toGoInt ++ ":" ++ m.From.PetID ++ ":" ++ m.Nonce ++ ":" ++
      toString m.TimestampNanos))).take 16)

/-- protocol.go `Verify`: the stored signature equals the recomputed one. -/
def Verify (m : Message) : Bool :=
  m.Signature == generateSignature m

/-- protocol.go `NewMessage`.  The wall-clock timestamp and the nonce (drawn
from the wall clock via `generateNonce`) are passed in explicitly; the
payload bytes are the JSON encoding of the argument. -/
def NewMessage (msgType : MessageType) (from_ : PetIdentity)
    (payload : PayloadBytes) (nowNanos : Int) (nonce : String) : Message :=
  let m : Message :=
    { MsgType := msgType
      From := from_
      TimestampNanos := nowNanos
      Payload := payload
      Signature := ""
      Nonce := nonce
      TTL := 5 }
  { m with Signature := generateSignature m }

/-- protocol.go `ShouldPropagate`. -/
def ShouldPropagate (m : Message) : Bool :=
  match m.MsgType with
  | .memory | .dream | .moodUpdate | .death | .consensus => m.TTL > 0
  | _ => false

/-- protocol.go `DecrementTTL`. -/
def DecrementTTL (m : Message) : Message :=
  if m.TTL > 0 then { m with TTL := m.TTL - 1 } else m

/-! ## Discovery peer records (discovery.go) -/

/-- discovery.go `Peer` (the UDP address is irrelevant to the state logic and
is kept as its string form only). -/
structure Peer where
  Identity : PetIdentity
  AddressStr : String
  LastSeenNanos : Int
  FirstSeenNanos : Int
  MessageCount : Nat
  Mood : String
  IsOnline : Bool
deriving Repr, DecidableEq

/-! ## Gossip service (gossip.go) -/

/-- gossip.go `GossipService` mutable state.  The discovery pointer is kept
as the owning identity only; messages sent through it are returned
explicitly by each operation. -/
structure GossipState where
  identity : PetIdentity
  receivedMemories : List MemoryPayload
  sharedDreams : List DreamPayload
  currentMood : String
  moodIntensity : Int
  deathsWitnessed : List DeathPayload
  messagesOriginated : Nat
  messagesPropagated : Nat
  uniquePeersReached : Nat
deriving Repr, DecidableEq

/-- gossip.go `NewGossipService`. -/
def NewGossipService (identity : PetIdentity) : GossipState :=
  { identity := identity
    receivedMemories := []
    sharedDreams := []
    currentMood := "neutral"
    moodIntensity := 50
    deathsWitnessed := []
    messagesOriginated := 0
    messagesPropagated := 0
    uniquePeersReached := 0 }

/-- gossip.go `onMessageReceived`.  `moodRoll` is the outcome of the one
random draw this function can make, the `randomSource.Float32() < 0.3`
comparison in the mood branch.  The result pairs the new gossip state with
the message handed to `discovery.SendMessage` when the propagation branch
fires (its TTL already decremented), `none` otherwise. -/
def onMessageReceived (gs : GossipState) (msg : Message) (moodRoll : Bool) :
    GossipState × Option Message :=
  let gs :=
    match msg.MsgType with
    | .memory =>
      match decodeMemory msg.Payload with
      | some memory =>
        let ms := gs.receivedMemories ++ [memory]
        { gs with receivedMemories := if ms.length > 50 then ms.drop 1 else ms }
      | none => gs
    | .dream =>
      match decodeDream msg.Payload with
      | some dream =>
        if CanShareDreamsWith gs.identity msg.From then
          let ds := gs.sharedDreams ++ [dream]
          { gs with sharedDreams := if ds.length > 20 then ds.drop 1 else ds }
        else gs
      | none => gs
    | .moodUpdate =>
      match decodeMood msg.Payload with
      | some mood =>
        if mood.IsContagious && moodRoll then
          { gs with currentMood := mood.Mood, moodIntensity := mood.Happiness }
        else gs
      | none => gs
    | .death =>
      match decodeDeath msg.Payload with
      | some death =>
        let dw := gs.deathsWitnessed ++ [death]
        { gs with deathsWitnessed := if dw.length > 100 then dw.drop 1 else dw }
      | none => gs
    | _ => gs
  if ShouldPropagate msg then
    ({ gs with messagesPropagated := gs.messagesPropagated + 1 },
     some (DecrementTTL msg))
  else
    (gs, none)

/-- gossip.go `recordPossibleDeath`.  `now`/`nonce` stand for the wall clock
and the nonce drawn while building the broadcast message.  Returns the new
state together with the death message sent to the online peers. -/
def recordPossibleDeath (gs : GossipState) (peer : Peer) (now : Int)
    (nonce : String) : GossipState × Message :=
  let death : DeathPayload :=
    { PetName := peer.Identity.DisplayName
      DeathTimeNanos := now
      Age := 0
      LastWords := "Connection lost..."
      Cause := "unknown" }
  let msg := NewMessage .death gs.identity (.death death) now nonce
  ({ gs with deathsWitnessed := gs.deathsWitnessed ++ [death] }, msg)

/-- gossip.go `GetDeathCount`. -/
def GetDeathCount (gs : GossipState) : Nat := gs.deathsWitnessed.length

/-- gossip.go `GetCurrentMood`. -/
def GetCurrentMood (gs : GossipState) : String × Int :=
  (gs.currentMood, gs.moodIntensity)

/-- gossip.go `GetNetworkInfluence`. -/
def GetNetworkInfluence (gs : GossipState) : Nat × Nat × Nat :=
  (gs.messagesOriginated, gs.messagesPropagated, gs.uniquePeersReached)

/-! ## Network facade (network.go) -/

/-- network.go `FriendRecord`. -/
structure FriendRecord where
  PetID : String
  DisplayName : String
  FirstMetNanos : Int
  LastSeenNanos : Int
  TimesVisited : Nat
  SharedDreams : Bool
  IsDeceased : Bool
deriving Repr, DecidableEq

/-- network.go `NetworkState` (the persisted blob contents). -/
structure NetworkState where
  Friends : List FriendRecord
  MemoriesShared : Nat
  DeathsWitnessed : Nat
  NetworkJoinTimeNanos : Int
  LastNetworkSyncNanos : Int
  Influence : Nat
deriving Repr, DecidableEq

/-- The zero `NetworkState`, as allocated by `NewNetwork` (`&NetworkState{}`). -/
def emptyNetworkState : NetworkState :=
  { Friends := []
    MemoriesShared := 0
    DeathsWitnessed := 0
    NetworkJoinTimeNanos := goZeroTimeNanos
    LastNetworkSyncNanos := goZeroTimeNanos
    Influence := 0 }

/-- The discovery-service state the facade observes: whether the service is
running and whether a UDP socket was successfully opened by `Start`. -/
structure DiscoveryState where
  running : Bool
  socketOpen : Bool
deriving Repr, DecidableEq

/-- network.go `Network` (facade).  The random source and the spooky-message
queue do not participate in any claim's behaviour and the live peer table is
passed to the operations that read it. -/
structure NetworkModel where
  identity : PetIdentity
  discovery : DiscoveryState
  gossip : GossipState
  state : NetworkState
  enabled : Bool
  isLonely : Bool
deriving Repr, DecidableEq

/-- network.go `NewNetwork`. -/
def NewNetwork (petName : String) (birthTimeNanos : Int) (stage : String)
    (isAlive : Bool) : NetworkModel :=
  let identity := NewPetIdentity petName birthTimeNanos stage isAlive
  { identity := identity
    discovery := { running := false, socketOpen := false }
    gossip := NewGossipService identity
    state := emptyNetworkState
    enabled := false
    isLonely := false }

/-- network.go `Start`.  `bindOk` is whether `discovery.Start` manages to
bind a UDP socket (on the fixed port or the fallback); on failure the error
is swallowed and nothing changes.  In lonely mode the function returns
before `discovery.Start` is ever called, so no socket is opened. -/
def Start (n : NetworkModel) (bindOk : Bool) (nowNanos : Int) : NetworkModel :=
  if n.isLonely then n
  else if !bindOk then n
  else
    { n with
      discovery := { running := true, socketOpen := true }
      enabled := true
      state :=
        if n.state.NetworkJoinTimeNanos == goZeroTimeNanos then
          { n.state with NetworkJoinTimeNanos := nowNanos }
        else n.state }

/-- network.go `Stop`. -/
def Stop (n : NetworkModel) : NetworkModel :=
  if !n.enabled then n
  else
    { n with
      discovery := { running := false, socketOpen := false }
      enabled := false }

/-- network.go `SetLonelyMode`. -/
def SetLonelyMode (n : NetworkModel) (lonely : Bool) : NetworkModel :=
  let n := { n with isLonely := lonely }
  if lonely && n.enabled then Stop n else n

/-- One step of network.go `UpdateState`'s merge loop over the peer
snapshot.  `friendMap` models the Go map built before the loop: it is keyed
by participant ID and holds POINTERS TO COPIES of the `Friends` elements
(`friendMap[f.PetID] = &f` takes the address of the `range` variable, a
copy of the slice element).  The match branch therefore writes `LastSeen`
and `TimesVisited` through the pointer into the copy held by the map, while
the `Friends` slice itself is only ever appended to. -/
def updateFriendsStep (identity : PetIdentity)
    (acc : List FriendRecord × List (String × FriendRecord)) (peer : Peer) :
    List FriendRecord × List (String × FriendRecord) :=
  let (friends, friendMap) := acc
  match friendMap.lookup peer.Identity.PetID with
  | some friend =>
    -- friend.LastSeen = peer.LastSeen; friend.TimesVisited++
    -- (mutates the copy in the map; `friends` is untouched)
    let friend' := { friend with
      LastSeenNanos := peer.LastSeenNanos
      TimesVisited := friend.TimesVisited + 1 }
    (friends,
     friendMap.map (fun kv => if kv.1 = peer.Identity.PetID then (kv.1, friend') else kv))
  | none =>
    (friends ++
      [{ PetID := peer.Identity.PetID
         DisplayName := peer.Identity.DisplayName
         FirstMetNanos := peer.FirstSeenNanos
         LastSeenNanos := peer.LastSeenNanos
         TimesVisited := 1
         SharedDreams := CanShareDreamsWith identity peer.Identity
         IsDeceased := !peer.Identity.IsAlive }],
     friendMap)

/-- network.go `UpdateState`.  `peers` is the snapshot returned by
`discovery.GetPeers()` and `nowNanos` the wall clock; the gossip counters
are read from the embedded gossip state.  The map of friend-record copies
is discarded when the function returns, exactly as in the Go code. -/
def UpdateState (n : NetworkModel) (peers : List Peer) (nowNanos : Int) :
    NetworkModel :=
  if !n.enabled then n
  else
    let st := { n.state with LastNetworkSyncNanos := nowNanos }
    let friendMap := n.state.Friends.map (fun f => (f.PetID, f))
    let (friends, _discardedCopies) :=
      peers.foldl (updateFriendsStep n.identity) (st.Friends, friendMap)
    let (originated, propagated, reached) := GetNetworkInfluence n.gossip
    { n with state :=
      { st with
        Friends := friends
        MemoriesShared := originated
        DeathsWitnessed := GetDeathCount n.gossip
        Influence := originated * 2 + propagated + reached * 3 } }

/-- network.go `GetFriendCount`. -/
def GetFriendCount (n : NetworkModel) : Nat := n.state.Friends.length

/-- network.go `GetInfluence`. -/
def GetInfluence (n : NetworkModel) : Nat := n.state.Influence

/-- The opaque byte blob produced by `json.Marshal` of a `NetworkState` or
handed to `ImportState`, modelled by the value the bytes decode to: either
a well-formed encoding of a state, or bytes `json.Unmarshal` rejects. -/
inductive StateBlob where
  | state (s : NetworkState)
  | malformed
deriving Repr, DecidableEq

/-- network.go `ExportState`: run `UpdateState`, then marshal the state.
Returns the facade after the update together with the blob. -/
def ExportState (n : NetworkModel) (peers : List Peer) (nowNanos : Int) :
    NetworkModel × StateBlob :=
  let n := UpdateState n peers nowNanos
  (n, .state n.state)

/-- network.go `ImportState`: unmarshal the blob into a fresh `NetworkState`
and install it; on a decode failure return the error and leave the held
state untouched.  The second component is `true` when an error is
returned. -/
def ImportState (n : NetworkModel) (blob : StateBlob) : NetworkModel × Bool :=
  match blob with
  | .state s => ({ n with state := s }, false)
  | .malformed => (n, true)

/-- A sequence of `Start` calls, each with its bind outcome and wall clock. -/
def startSeq (n : NetworkModel) : List (Bool × Int) → NetworkModel :=
  List.foldl (fun acc p => Start acc p.1 p.2) n

/-! ## Auxiliary definitions for the collision arguments -/

/-- The base-256 value of a little-endian byte list (positional reading used
to show byte lists of fixed length and bounded entries form a finite set). -/
def natOfBytes : List Nat → Nat
  | [] => 0
  | b :: bs => b + 256 * natOfBytes bs

/-- The name consisting of `n` copies of the letter `a`. -/
def repA (n : Nat) : String := ⟨List.replicate n 'a'⟩

/-! ## Concrete sample data used by the closed theorems -/

/-- `time.Date(2024, 1, 15, 10, 30, 0, 0, time.UTC).UnixNano()`, the birth
time used by the repository's identity tests. -/
def nibblesBirthNanos : Int := 1705314600000000000

/-- A local pet identity (literal fields; no derivation involved). -/
def tamaIdentity : PetIdentity :=
  { PetID := "pid-one", DisplayName := "Nibbles", BirthTimeNanos := 0,
    PublicKey := "", Stage := "Baby", IsAlive := true }

/-- A remote pet identity with a different participant ID. -/
def rexIdentity : PetIdentity :=
  { PetID := "pid-two", DisplayName := "Rex", BirthTimeNanos := 0,
    PublicKey := "", Stage := "Adult", IsAlive := true }

/-- A fresh gossip state owned by `tamaIdentity`. -/
def gossip0 : GossipState := NewGossipService tamaIdentity

/-- A concrete memory payload. -/
def sampleMemory : MemoryPayload :=
  { Fragment := "I saw another like me, but different.", Emotion := "serene",
    Intensity := 42, OriginTimeNanos := 0 }

/-- A memory message whose integrity tag does not verify: its `Signature`
field is the literal `"forged"`, not the recomputed tag. -/
def forgedMemoryMsg : Message :=
  { MsgType := .memory, From := rexIdentity, TimestampNanos := 0,
    Payload := .memory sampleMemory, Signature := "forged", Nonce := "nonce1",
    TTL := 5 }

/-- A whisper message with a positive hop budget. -/
def whisperMsg : Message :=
  { MsgType := .whisper, From := rexIdentity, TimestampNanos := 0,
    Payload := .nilPayload, Signature := "", Nonce := "n", TTL := 5 }

/-- A mood-update message whose contagious flag is false. -/
def calmMoodMsg : Message :=
  { MsgType := .moodUpdate, From := rexIdentity, TimestampNanos := 0,
    Payload := .mood { Mood := "melancholy", Happiness := 10, IsContagious := false },
    Signature := "", Nonce := "n", TTL := 5 }

/-- A concrete death payload. -/
def sampleDeath : DeathPayload :=
  { PetName := "Fluffy", DeathTimeNanos := 0, Age := 12, LastWords := "bye",
    Cause := "neglect" }

/-- A death message from the remote pet (hop budget already exhausted). -/
def deathMsgSample : Message :=
  { MsgType := .death, From := rexIdentity, TimestampNanos := 0,
    Payload := .death sampleDeath, Signature := "", Nonce := "n", TTL := 0 }

/-- Deliver `n` copies of `deathMsgSample` to a gossip state. -/
def iterateDeathMsgs : Nat → GossipState → GossipState
  | 0, gs => gs
  | n + 1, gs => iterateDeathMsgs n (onMessageReceived gs deathMsgSample false).1

/-- A peer record for `rexIdentity`, last seen at instant 200. -/
def rexPeer : Peer :=
  { Identity := rexIdentity, AddressStr := "192.168.1.7:19847",
    LastSeenNanos := 200, FirstSeenNanos := 50, MessageCount := 7, Mood := "",
    IsOnline := true }

/-- A persisted friend record for the same participant ID as `rexPeer`,
last seen at instant 100 with 3 recorded visits. -/
def rexFriend : FriendRecord :=
  { PetID := "pid-two", DisplayName := "Rex", FirstMetNanos := 50,
    LastSeenNanos := 100, TimesVisited := 3, SharedDreams := false,
    IsDeceased := false }

/-- An enabled network facade whose ledger holds exactly `rexFriend`. -/
def mergeNet : NetworkModel :=
  { identity := tamaIdentity
    discovery := { running := true, socketOpen := true }
    gossip := gossip0
    state := { emptyNetworkState with Friends := [rexFriend] }
    enabled := true
    isLonely := false }

/-- A freshly constructed facade put into lonely mode. -/
def lonelyNet : NetworkModel := SetLonelyMode (NewNetwork "Tama" 0 "Egg" true) true

/-! ## Theorems -/

/-- C4: `ShouldPropagate` returns true if and only if the message's type is
one of {memory, dream, mood-update, death, consensus} and its hop budget
(TTL) is strictly positive; for the types {discover, announce, goodbye,
whisper, pulse} it returns false regardless of the hop budget. -/
theorem shouldPropagate_spec (m : Message) :
    (ShouldPropagate m = true ↔
      ((m.MsgType = .memory ∨ m.MsgType = .dream ∨ m.MsgType = .moodUpdate ∨
        m.MsgType = .death ∨ m.MsgType = .consensus) ∧ 0 < m.TTL)) ∧
    ((m.MsgType = .discover ∨ m.MsgType = .announce ∨ m.MsgType = .goodbye ∨
        m.MsgType = .whisper ∨ m.MsgType = .pulse) →
      ShouldPropagate m = false) := by
  rcases m with ⟨t, fr, ts, pl, sg, nc, ttl⟩
  cases t <;> simp [ShouldPropagate]

theorem shouldPropagate_spec_witness : ShouldPropagate whisperMsg = false :=
  (shouldPropagate_spec whisperMsg).2 (Or.inr (Or.inr (Or.inr (Or.inl rfl))))

/-- C9: while the isolated (lonely) flag is set, `Start` is the identity on
the facade: no call in any sequence of start calls opens a socket, changes
the discovery state, or sets the `enabled` flag, so a stopped facade stays
stopped. -/
theorem lonely_mode_start_inert (n : NetworkModel) (ops : List (Bool × Int))
    (hLonely : n.isLonely = true) (hEnabled : n.enabled = false)
    (hSocket : n.discovery.socketOpen = false) :
    startSeq n ops = n ∧ (startSeq n ops).enabled = false ∧
      (startSeq n ops).discovery.socketOpen = false := by
  have hstep : ∀ (m : NetworkModel) (b : Bool) (t : Int), m.isLonely = true →
      Start m b t = m := by
    intro m b t hm
    simp [Start, hm]
  have hseq : startSeq n ops = n := by
    induction ops with
    | nil => rfl
    | cons p rest ih =>
      show startSeq (Start n p.1 p.2) rest = n
      rw [hstep n p.1 p.2 hLonely]
      exact ih
  exact ⟨hseq, by rw [hseq]; exact hEnabled, by rw [hseq]; exact hSocket⟩

theorem lonely_mode_start_inert_witness :
    startSeq lonelyNet [(true, 5), (false, 6), (true, 7)] = lonelyNet ∧
      (startSeq lonelyNet [(true, 5), (false, 6), (true, 7)]).enabled = false ∧
      (startSeq lonelyNet [(true, 5), (false, 6), (true, 7)]).discovery.socketOpen
        = false :=
  lonely_mode_start_inert lonelyNet [(true, 5), (false, 6), (true, 7)] rfl rfl rfl

/-- C10: a received mood-update message whose contagious flag is false
leaves the receiver's current mood and mood intensity unchanged whatever
the random adoption roll; moreover the mood or intensity can change at all
only when the message carries a mood payload whose contagious flag is set
and the ~30% adoption roll succeeds. -/
theorem non_contagious_mood_leaves_mood_unchanged (gs : GossipState)
    (msg : Message) (moodRoll : Bool) :
    (∀ p : MoodPayload, msg.MsgType = .moodUpdate → msg.Payload = .mood p →
      p.IsContagious = false →
      (onMessageReceived gs msg moodRoll).1.currentMood = gs.currentMood ∧
      (onMessageReceived gs msg moodRoll).1.moodIntensity = gs.moodIntensity) ∧
    (((onMessageReceived gs msg moodRoll).1.currentMood ≠ gs.currentMood ∨
      (onMessageReceived gs msg moodRoll).1.moodIntensity ≠ gs.moodIntensity) →
      ∃ p : MoodPayload, msg.Payload = .mood p ∧ p.IsContagious = true ∧
        moodRoll = true) := by
  rcases msg with ⟨t, fr, ts, pl, sg, nc, ttl⟩
  constructor
  · rintro p ht hp hflag
    subst ht; subst hp
    simp [onMessageReceived, decodeMood, hflag]
    split <;> simp
  · intro hchange
    by_contra hno
    push_neg at hno
    have hsame : (onMessageReceived gs ⟨t, fr, ts, pl, sg, nc, ttl⟩ moodRoll).1.currentMood
        = gs.currentMood ∧
        (onMessageReceived gs ⟨t, fr, ts, pl, sg, nc, ttl⟩ moodRoll).1.moodIntensity
        = gs.moodIntensity := by
      cases t <;> rcases pl with p | p | p | p | p | _ | _ <;>
        simp_all [onMessageReceived, decodeMemory, decodeDream, decodeMood,
          decodeDeath, zeroMood] <;>
        (try split_ifs) <;> (try simp_all)
    rcases hchange with h | h
    · exact h hsame.1
    · exact h hsame.2

theorem non_contagious_mood_leaves_mood_unchanged_witness :
    (onMessageReceived gossip0 calmMoodMsg true).1.currentMood =
        gossip0.currentMood ∧
      (onMessageReceived gossip0 calmMoodMsg true).1.moodIntensity =
        gossip0.moodIntensity :=
  (non_contagious_mood_leaves_mood_unchanged gossip0 calmMoodMsg true).1
    { Mood := "melancholy", Happiness := 10, IsContagious := false } rfl rfl rfl

/-- C7: exporting the persisted state (which first runs the state merge)
and importing the resulting blob into a freshly constructed facade succeeds
and reproduces the friend-ledger contents, the friend count, and the
influence score of the exporting facade. -/
theorem exportState_importState_roundtrip (n : NetworkModel)
    (peers : List Peer) (nowNanos : Int) (name : String) (bt : Int)
    (stage : String) (alive : Bool) :
    (ImportState (NewNetwork name bt stage alive)
        (ExportState n peers nowNanos).2).2 = false ∧
    (ImportState (NewNetwork name bt stage alive)
        (ExportState n peers nowNanos).2).1.state.Friends =
      (ExportState n peers nowNanos).1.state.Friends ∧
    GetFriendCount (ImportState (NewNetwork name bt stage alive)
        (ExportState n peers nowNanos).2).1 =
      GetFriendCount (ExportState n peers nowNanos).1 ∧
    GetInfluence (ImportState (NewNetwork name bt stage alive)
        (ExportState n peers nowNanos).2).1 =
      GetInfluence (ExportState n peers nowNanos).1 := by
  simp [ImportState, ExportState, GetFriendCount, GetInfluence]

/-- C8: importing bytes that fail to decode into a freshly constructed
facade reports the error to the caller (who ignores it; nothing aborts) and
leaves the facade's state the empty state: empty friend ledger and zero
counters. -/
theorem importState_malformed_leaves_empty_state (name : String) (bt : Int)
    (stage : String) (alive : Bool) :
    (ImportState (NewNetwork name bt stage alive) .malformed).1.state =
        emptyNetworkState ∧
      (ImportState (NewNetwork name bt stage alive) .malformed).1.state.Friends
        = [] ∧
      (ImportState (NewNetwork name bt stage alive) .malformed).1.state.MemoriesShared
        = 0 ∧
      (ImportState (NewNetwork name bt stage alive) .malformed).1.state.DeathsWitnessed
        = 0 ∧
      (ImportState (NewNetwork name bt stage alive) .malformed).1.state.Influence
        = 0 ∧
      (ImportState (NewNetwork name bt stage alive) .malformed).2 = true := by
  refine ⟨rfl, rfl, rfl, rfl, rfl, rfl⟩

set_option maxRecDepth 40000 in
/-- C1(counterexample): a concrete memory message whose integrity tag does
not verify is nevertheless applied to the gossip state (its payload is
appended to the received-memories buffer) and re-broadcast with its hop
budget decremented — `onMessageReceived` never calls `Verify`. -/
theorem forged_message_applied_and_propagated :
    Verify forgedMemoryMsg = false ∧
    (onMessageReceived gossip0 forgedMemoryMsg false).1.receivedMemories =
      gossip0.receivedMemories ++ [sampleMemory] ∧
    (onMessageReceived gossip0 forgedMemoryMsg false).2 =
      some (DecrementTTL forgedMemoryMsg) := by
  refine ⟨by decide, by decide, by decide⟩

/-- C1(amended): received gossip messages are processed without any
integrity-tag verification: the state update and the propagation decision
of `onMessageReceived` depend only on the message's type, sender identity,
payload and hop budget, never on the integrity tag (nor on the nonce or
timestamp the tag covers), so a message whose tag does not verify is
applied to gossip state and re-broadcast exactly as a verified one is. -/
theorem onMessageReceived_ignores_integrity_tag (gs : GossipState)
    (roll : Bool) (m1 m2 : Message) (ht : m1.MsgType = m2.MsgType)
    (hf : m1.From = m2.From) (hp : m1.Payload = m2.Payload)
    (httl : m1.TTL = m2.TTL) :
    (onMessageReceived gs m1 roll).1 = (onMessageReceived gs m2 roll).1 ∧
    ((onMessageReceived gs m1 roll).2).isSome =
      ((onMessageReceived gs m2 roll).2).isSome := by
  rcases m1 with ⟨t1, fr1, ts1, pl1, sg1, nc1, ttl1⟩
  rcases m2 with ⟨t2, fr2, ts2, pl2, sg2, nc2, ttl2⟩
  replace ht : t1 = t2 := ht
  replace hf : fr1 = fr2 := hf
  replace hp : pl1 = pl2 := hp
  replace httl : ttl1 = ttl2 := httl
  subst ht; subst hf; subst hp; subst httl
  have hsp : ShouldPropagate ⟨t1, fr1, ts2, pl1, sg2, nc2, ttl1⟩ =
      ShouldPropagate ⟨t1, fr1, ts1, pl1, sg1, nc1, ttl1⟩ := rfl
  cases hc : ShouldPropagate ⟨t1, fr1, ts1, pl1, sg1, nc1, ttl1⟩ <;>
    simp [onMessageReceived, hc, hsp.trans hc]

theorem onMessageReceived_ignores_integrity_tag_witness :
    (onMessageReceived gossip0 forgedMemoryMsg false).1 =
      (onMessageReceived gossip0 { forgedMemoryMsg with Signature := "x" }
        false).1 :=
  (onMessageReceived_ignores_integrity_tag gossip0 false forgedMemoryMsg
    { forgedMemoryMsg with Signature := "x" } rfl rfl rfl rfl).1

/-- C2: evaluating the state merge at a peer snapshot whose single peer
(last seen at 200) matches the single ledger record (last seen at 100,
3 visits) leaves the ledger record byte-for-byte unchanged: the
update-on-match branch writes through a pointer into a copy of the record
(`friendMap[f.PetID] = &f` captures the range variable), so the claimed
last-seen refresh and visit-count increment never reach the ledger. -/
theorem updateState_match_update_lost :
    (UpdateState mergeNet [rexPeer] 999).state.Friends = [rexFriend] ∧
    rexPeer.Identity.PetID = rexFriend.PetID ∧
    rexPeer.LastSeenNanos = 200 ∧ rexFriend.LastSeenNanos = 100 ∧
    rexFriend.TimesVisited = 3 := by
  refine ⟨by decide, rfl, rfl, rfl, rfl⟩

set_option maxRecDepth 40000 in
/-- C3: the witnessed-deaths buffer is not bounded by its 100-record cap:
after one hundred received death messages the buffer holds exactly 100
records, and one speculative death recording (`recordPossibleDeath`, which
appends without the trim the message path applies) then leaves it at 101,
exceeding the cap with nothing evicted. -/
theorem deathsWitnessed_exceeds_cap :
    GetDeathCount (iterateDeathMsgs 100 gossip0) = 100 ∧
    GetDeathCount
      (recordPossibleDeath (iterateDeathMsgs 100 gossip0) rexPeer 0 "n2").1 =
      101 := by
  constructor <;> decide

/-- Every byte produced by `bytesOfWord` is below 256. -/
theorem bytesOfWord_lt (x : Nat) : ∀ b ∈ bytesOfWord x, b < 256 := by
  intro b hb
  simp only [bytesOfWord, List.mem_cons, List.not_mem_nil, or_false] at hb
  rcases hb with rfl | rfl | rfl | rfl <;> exact Nat.mod_lt _ (by norm_num)

/-- The SHA-256 digest always has 32 bytes. -/
theorem sha256_length (msg : List Nat) : (sha256 msg).length = 32 := by
  simp [sha256, bytesOfWord]

/-- Every byte of a SHA-256 digest is below 256. -/
theorem sha256_lt (msg : List Nat) : ∀ b ∈ sha256 msg, b < 256 := by
  intro b hb
  simp only [sha256, List.mem_append] at hb
  rcases hb with ((((((h | h) | h) | h) | h) | h) | h) | h <;>
    exact bytesOfWord_lt _ b h

/-- `natOfBytes` of a byte list is below `256 ^ length`. -/
theorem natOfBytes_lt (l : List Nat) (h : ∀ b ∈ l, b < 256) :
    natOfBytes l < 256 ^ l.length := by
  induction l with
  | nil => simp [natOfBytes]
  | cons b bs ih =>
    have hb : b < 256 := h b (List.mem_cons_self b bs)
    have hr := ih (fun x hx => h x (List.mem_cons_of_mem b hx))
    simp only [natOfBytes, List.length_cons, pow_succ]
    generalize (256 : Nat) ^ bs.length = N at hr ⊢
    omega

/-- `natOfBytes` is injective on byte lists of equal length. -/
theorem natOfBytes_inj : ∀ l1 l2 : List Nat, l1.length = l2.length →
    (∀ b ∈ l1, b < 256) → (∀ b ∈ l2, b < 256) →
    natOfBytes l1 = natOfBytes l2 → l1 = l2 := by
  intro l1
  induction l1 with
  | nil =>
    intro l2 hlen _ _ _
    cases l2 with
    | nil => rfl
    | cons c cs => simp at hlen
  | cons b bs ih =>
    intro l2 hlen h1 h2 h
    cases l2 with
    | nil => simp at hlen
    | cons c cs =>
      simp only [natOfBytes] at h
      have hb : b < 256 := h1 b (List.mem_cons_self b bs)
      have hc : c < 256 := h2 c (List.mem_cons_self c cs)
      have hbc : b = c := by omega
      have hrest : natOfBytes bs = natOfBytes cs := by omega
      have hcs : bs = cs :=
        ih cs (by simpa using hlen)
          (fun x hx => h1 x (List.mem_cons_of_mem b hx))
          (fun x hx => h2 x (List.mem_cons_of_mem c hx)) hrest
      rw [hbc, hcs]

/-- Pigeonhole for fixed-width byte encodings of strings: any map sending
every string to a byte list of one fixed length collides on two distinct
strings, there being infinitely many strings and finitely many byte lists
of that length. -/
theorem exists_string_collision (enc : String → List Nat) (k : Nat)
    (hlen : ∀ s, (enc s).length = k)
    (hbnd : ∀ s, ∀ b ∈ enc s, b < 256) :
    ∃ s1 s2 : String, s1 ≠ s2 ∧ enc s1 = enc s2 := by
  have hfin : ∀ n : Nat, natOfBytes (enc (repA n)) < 256 ^ k := by
    intro n
    have := natOfBytes_lt (enc (repA n)) (hbnd (repA n))
    rwa [hlen] at this
  obtain ⟨m, n, hmn, hf⟩ :=
    Finite.exists_ne_map_eq_of_infinite
      (fun n : Nat => (⟨natOfBytes (enc (repA n)), hfin n⟩ : Fin (256 ^ k)))
  refine ⟨repA m, repA n, ?_, ?_⟩
  · intro h
    apply hmn
    have hdata : List.replicate m 'a' = List.replicate n 'a' :=
      congrArg String.data h
    have := congrArg List.length hdata
    simpa using this
  · have hval : natOfBytes (enc (repA m)) = natOfBytes (enc (repA n)) :=
      congrArg Fin.val hf
    exact natOfBytes_inj (enc (repA m)) (enc (repA n))
      (by rw [hlen, hlen]) (hbnd _) (hbnd _) hval

/-- C5(counterexample): there exist two distinct names whose derived
participant IDs at the same creation time are equal — the ID keeps only 16
bytes of the hash while names are unbounded, so "inputs that differ in the
name yield different IDs" fails. -/
theorem generatePetID_collision_exists :
    ∃ n1 n2 : String, n1 ≠ n2 ∧ GeneratePetID n1 0 = GeneratePetID n2 0 := by
  obtain ⟨s1, s2, hne, heq⟩ := exists_string_collision
    (fun s => (sha256 (strBytes (s ++ ":" ++ toString (0 : Int)))).take 16) 16
    (fun s => by rw [List.length_take, sha256_length]; decide)
    (fun s b hb => sha256_lt _ b (List.take_subset _ _ hb))
  exact ⟨s1, s2, hne, congrArg hexEncode heq⟩

set_option maxRecDepth 40000 in
/-- C5(amended): deriving the participant ID is deterministic — identical
(name, creation-time) inputs always yield identical IDs — and on the
repository's own identity-test inputs a differing name and a differing
creation time each yield a different 32-hex-character ID; distinctness
cannot hold for all input pairs, the ID being a 128-bit truncated hash. -/
theorem generatePetID_deterministic_and_distinct_on_tests :
    (∀ (name1 name2 : String) (t1 t2 : Int), name1 = name2 → t1 = t2 →
      GeneratePetID name1 t1 = GeneratePetID name2 t2) ∧
    GeneratePetID "Nibbles" nibblesBirthNanos ≠
      GeneratePetID "Fluffy" nibblesBirthNanos ∧
    GeneratePetID "Nibbles" nibblesBirthNanos ≠
      GeneratePetID "Nibbles" (nibblesBirthNanos + 1000000000) ∧
    (GeneratePetID "Nibbles" nibblesBirthNanos).length = 32 := by
  refine ⟨?_, by decide, by decide, by decide⟩
  rintro name1 name2 t1 t2 rfl rfl
  rfl

theorem generatePetID_deterministic_and_distinct_on_tests_witness :
    GeneratePetID "Nibbles" 0 = GeneratePetID "Nibbles" 0 :=
  generatePetID_deterministic_and_distinct_on_tests.1 "Nibbles" "Nibbles" 0 0
    rfl rfl

/-- C6(counterexample): there exist two distinct names with equal name
fingerprints (the fingerprint keeps only 8 hash bytes), and identities
bearing those names — at different creation times and life stages — can
share dreams; so "fingerprints equal iff names exactly equal" and
"dream-sharing holds exactly between equal display names" both fail. -/
theorem nameHash_collision_exists :
    ∃ n1 n2 : String, n1 ≠ n2 ∧ GenerateNameHash n1 = GenerateNameHash n2 ∧
      CanShareDreamsWith (NewPetIdentity n1 0 "Baby" true)
        (NewPetIdentity n2 1 "Adult" false) = true := by
  obtain ⟨s1, s2, hne, heq⟩ := exists_string_collision
    (fun s => (sha256 (strBytes s)).take 8) 8
    (fun s => by rw [List.length_take, sha256_length]; decide)
    (fun s b hb => sha256_lt _ b (List.take_subset _ _ hb))
  have hhash : GenerateNameHash s1 = GenerateNameHash s2 :=
    congrArg hexEncode heq
  exact ⟨s1, s2, hne, hhash, by simp [CanShareDreamsWith, NewPetIdentity, hhash]⟩

set_option maxRecDepth 40000 in
/-- C6(amended): the name fingerprint depends only on the display name —
equal names give equal fingerprints, independent of the creation time —
and dream-sharing eligibility holds exactly between identities with equal
name fingerprints, in particular whenever the display names are equal; on
the repository's test names, "Nibbles" and "Fluffy" have distinct
fingerprints.  (Equal fingerprints cannot imply equal names universally,
the fingerprint being a 64-bit truncated hash.) -/
theorem nameHash_name_dependence_and_dream_gate :
    (∀ name1 name2 : String, name1 = name2 →
      GenerateNameHash name1 = GenerateNameHash name2) ∧
    (∀ pi other : PetIdentity, CanShareDreamsWith pi other = true ↔
      GenerateNameHash pi.DisplayName = GenerateNameHash other.DisplayName) ∧
    (∀ pi other : PetIdentity, pi.DisplayName = other.DisplayName →
      CanShareDreamsWith pi other = true) ∧
    GenerateNameHash "Nibbles" ≠ GenerateNameHash "Fluffy" := by
  refine ⟨?_, ?_, ?_, by decide⟩
  · rintro n1 n2 rfl
    rfl
  · intro pi other
    simp [CanShareDreamsWith]
  · intro pi other h
    simp [CanShareDreamsWith, h]

theorem nameHash_name_dependence_and_dream_gate_witness :
    CanShareDreamsWith tamaIdentity tamaIdentity = true :=
  nameHash_name_dependence_and_dream_gate.2.2.1 tamaIdentity tamaIdentity rfl

end Mooc
